import Mathlib

/-!
Verification of the notebook-assembly helper described by the pyGSTi
specification.  The supplied notebooks (`AdvancedReportCreation.ipynb`)
only *use* the `pygsti.report.Notebook` class; its implementation file is
not among the supplied sources, so every definition below is modelled
from the specification's own words (spec.md sections 4, 6 and 7, plus the
narrative markdown of `AdvancedReportCreation.ipynb`): a thin wrapper
holding a JSON cell list, with append operations for markdown/code cells,
file loaders for plain and tag-delimited (`@@code` / `@@markdown`) text,
notebook concatenation, and a `launch` that writes the cell list to disk.
-/

/-- Modelled from the spec: a notebook cell is either a code cell or a
markdown cell (the two cell kinds produced by `add_code` / `add_markdown`
and by the `@@code` / `@@markdown` tags). -/
inductive CellType where
  | code
  | markdown
deriving DecidableEq, Repr

/-- Modelled from the spec: a single cell of the JSON cell list.  In the
`.ipynb` JSON format a cell's source is stored as a list of lines. -/
structure Cell where
  cellType : CellType
  source : List String
deriving DecidableEq, Repr

/-- Modelled from the spec: the `Notebook` convenience object is a thin
wrapper around a JSON cell list ("string concatenation into a JSON cell
list"); its only state is the list of cells accumulated so far. -/
structure Notebook where
  cells : List Cell
deriving DecidableEq, Repr

/-- Modelled from the spec: an error of the host environment or external
library (missing file, malformed file, decode failure).  The helper
defines no error taxonomy of its own, so the error payload is opaque to
it: just the host's message. -/
structure HostError where
  msg : String
deriving DecidableEq, Repr

/-- Modelled from the spec: the host environment's primitive for reading
a text file as a list of lines; it may fail for any host reason (missing
file, permissions, decode), producing the host's own error. -/
def HostRead : Type := String → Except HostError (List String)

/-- Modelled from the spec: the host environment's primitive for reading
and JSON-decoding an existing `.ipynb` file into its cell list; it may
fail with the host's or the JSON library's own error (missing file,
malformed JSON). -/
def HostReadNb : Type := String → Except HostError (List Cell)

/-- Modelled from the spec: the disk contents at `.ipynb` paths, as seen
by `launch` when it writes a notebook file. -/
def Disk : Type := String → Option (List Cell)

/-- Modelled from the spec: a freshly constructed `Notebook()` holds no
cells. -/
def Notebook.new : Notebook := ⟨[]⟩

/-- Modelled from the spec: `add_markdown` appends one markdown cell
holding the given content at the end of the cell list. -/
def Notebook.add_markdown (nb : Notebook) (s : List String) : Notebook :=
  ⟨nb.cells ++ [⟨CellType.markdown, s⟩]⟩

/-- Modelled from the spec: `add_code` appends one code cell holding the
given content at the end of the cell list. -/
def Notebook.add_code (nb : Notebook) (s : List String) : Notebook :=
  ⟨nb.cells ++ [⟨CellType.code, s⟩]⟩

/-- Modelled from the spec: `add_markdown_file` reads a file with the
host primitive and appends its content as one markdown cell; a host read
failure propagates unchanged. -/
def Notebook.add_markdown_file (read : HostRead) (nb : Notebook) (path : String) :
    Except HostError Notebook :=
  match read path with
  | .ok lines => .ok (nb.add_markdown lines)
  | .error e => .error e

/-- Modelled from the spec: `add_code_file` reads a file with the host
primitive and appends its content as one code cell; a host read failure
propagates unchanged. -/
def Notebook.add_code_file (read : HostRead) (nb : Notebook) (path : String) :
    Except HostError Notebook :=
  match read path with
  | .ok lines => .ok (nb.add_code lines)
  | .error e => .error e

/-- Modelled from the spec: the tag recognizer of the "formatted text"
loader.  Exactly the special tags `@@code` and `@@markdown` separate
blocks; any other line is ordinary content. -/
def parseTag (line : String) : Option CellType :=
  if line = "@@code" then some CellType.code
  else if line = "@@markdown" then some CellType.markdown
  else none

/-- Modelled from the spec: the current, not yet flushed block of the
formatted-text loader: the cell type announced by the last tag seen, and
the content lines gathered since (in reverse). -/
def flushBlock : Option (CellType × List String) → List Cell
  | none => []
  | some (ty, acc) => [⟨ty, acc.reverse⟩]

/-- Modelled from the spec: the formatted-text parser.  A `@@code` or
`@@markdown` tag line flushes the current block as a cell and starts a
new block of the announced type; any other line is content of the current
block; text before the first tag follows no tag and yields no cell. -/
def parseLines : List String → Option (CellType × List String) → List Cell
  | [], cur => flushBlock cur
  | l :: rest, cur =>
    match parseTag l with
    | some ty => flushBlock cur ++ parseLines rest (some (ty, []))
    | none =>
      match cur with
      | none => parseLines rest none
      | some (ty, acc) => parseLines rest (some (ty, l :: acc))

/-- Modelled from the spec: parse a whole formatted-text file (as lines)
into the cell list it denotes. -/
def parseNbText (lines : List String) : List Cell :=
  parseLines lines none

/-- Modelled from the spec: `add_notebook_text` appends every cell of a
formatted text, in the file's block order, after the current cells. -/
def Notebook.add_notebook_text (nb : Notebook) (lines : List String) : Notebook :=
  ⟨nb.cells ++ parseNbText lines⟩

/-- Modelled from the spec: `add_notebook_text_file` reads a formatted
text file with the host primitive and appends its cells; a host read
failure propagates unchanged. -/
def Notebook.add_notebook_text_file (read : HostRead) (nb : Notebook) (path : String) :
    Except HostError Notebook :=
  match read path with
  | .ok lines => .ok (nb.add_notebook_text lines)
  | .error e => .error e

/-- Modelled from the spec: `add_notebook_file` reads an existing
`.ipynb` file with the host primitive and appends all of its cells, in
their original order, after the current cells (notebook concatenation);
a host read failure propagates unchanged. -/
def Notebook.add_notebook_file (readNb : HostReadNb) (nb : Notebook) (path : String) :
    Except HostError Notebook :=
  match readNb path with
  | .ok cs => .ok ⟨nb.cells ++ cs⟩
  | .error e => .error e

/-- Modelled from the spec: `add_notebook_text_files` calls
`add_notebook_text_file` on each path of the list in order, stopping at
the first host failure, which propagates unchanged. -/
def Notebook.add_notebook_text_files (read : HostRead) (nb : Notebook) :
    List String → Except HostError Notebook
  | [] => .ok nb
  | p :: ps =>
    match nb.add_notebook_text_file read p with
    | .ok nb2 => nb2.add_notebook_text_files read ps
    | .error e => .error e

/-- Modelled from the spec: `launch(path)` writes the notebook's cell
list to disk as a `.ipynb` JSON file at that path (overwriting that path
and touching no other), then optionally auto-opens it in a browser-based
notebook server — a host side effect with no further effect on the disk
model. -/
def Notebook.launch (nb : Notebook) (path : String) (disk : Disk) : Disk :=
  fun p => if p = path then some nb.cells else disk p

/-- One call of the elementary append operations: the cell type selects
`add_markdown` or `add_code`, the second component is the content. -/
def applyCall (nb : Notebook) (c : CellType × List String) : Notebook :=
  match c.1 with
  | CellType.markdown => nb.add_markdown c.2
  | CellType.code => nb.add_code c.2

/-- A sequence of `add_markdown` / `add_code` calls, applied in order. -/
def applyCalls (nb : Notebook) (calls : List (CellType × List String)) : Notebook :=
  calls.foldl applyCall nb

/-- The cell a call produces. -/
def callCell (c : CellType × List String) : Cell :=
  ⟨c.1, c.2⟩

/-- Modelled from the spec: the tag line announcing a block of the given
cell type in a formatted text file. -/
def tagLine : CellType → String
  | CellType.code => "@@code"
  | CellType.markdown => "@@markdown"

/-- A tag-delimited template file, rendered from its blocks: each block
contributes its tag line followed by its content lines. -/
def renderBlocks : List (CellType × List String) → List String
  | [] => []
  | (ty, ls) :: rest => tagLine ty :: (ls ++ renderBlocks rest)

/-- Manually calling `add_code` / `add_markdown` once per block, in block
order. -/
def applyBlocks (nb : Notebook) (blocks : List (CellType × List String)) : Notebook :=
  blocks.foldl applyCall nb

/-- One notebook-assembly operation, for stating run determinism. -/
inductive Cmd where
  | addMarkdown (s : List String)
  | addCode (s : List String)
  | addMarkdownFile (p : String)
  | addCodeFile (p : String)
  | addNotebookTextFile (p : String)
  | addNotebookFile (p : String)
  | addNotebookTextFiles (ps : List String)

/-- Run one assembly operation against the host read primitives. -/
def runCmd (read : HostRead) (readNb : HostReadNb) (nb : Notebook) :
    Cmd → Except HostError Notebook
  | .addMarkdown s => .ok (nb.add_markdown s)
  | .addCode s => .ok (nb.add_code s)
  | .addMarkdownFile p => nb.add_markdown_file read p
  | .addCodeFile p => nb.add_code_file read p
  | .addNotebookTextFile p => nb.add_notebook_text_file read p
  | .addNotebookFile p => nb.add_notebook_file readNb p
  | .addNotebookTextFiles ps => nb.add_notebook_text_files read ps

/-- Run a sequence of assembly operations, stopping at the first host
failure. -/
def run (read : HostRead) (readNb : HostReadNb) (nb : Notebook) :
    List Cmd → Except HostError Notebook
  | [] => .ok nb
  | c :: cs =>
    match runCmd read readNb nb c with
    | .ok nb2 => run read readNb nb2 cs
    | .error e => .error e

theorem Notebook.eq_of_cells {a b : Notebook} (h : a.cells = b.cells) : a = b := by
  cases a
  cases b
  simpa using h

theorem applyCalls_cells (calls : List (CellType × List String)) (nb : Notebook) :
    (applyCalls nb calls).cells = nb.cells ++ calls.map callCell := by
  induction calls generalizing nb with
  | nil => simp [applyCalls]
  | cons c cs ih =>
    have h : applyCalls nb (c :: cs) = applyCalls (applyCall nb c) cs := rfl
    rw [h, ih]
    cases c with
    | mk ty s =>
      cases ty <;>
        simp [applyCall, Notebook.add_markdown, Notebook.add_code, callCell]

theorem parseLines_content : ∀ (ls : List String), (∀ l ∈ ls, parseTag l = none) →
    ∀ (rest : List String) (ty : CellType) (acc : List String),
      parseLines (ls ++ rest) (some (ty, acc))
        = parseLines rest (some (ty, ls.reverse ++ acc))
  | [], _, rest, ty, acc => by simp
  | l :: ls2, h, rest, ty, acc => by
    have hl : parseTag l = none := h l (List.mem_cons_self l ls2)
    have h2 : ∀ x ∈ ls2, parseTag x = none := fun x hx => h x (List.mem_cons_of_mem l hx)
    simp only [List.cons_append, parseLines, hl]
    show parseLines (ls2 ++ rest) (some (ty, l :: acc))
        = parseLines rest (some (ty, (l :: ls2).reverse ++ acc))
    rw [parseLines_content ls2 h2 rest ty (l :: acc)]
    simp

theorem parseLines_render : ∀ (blocks : List (CellType × List String)),
    (∀ b ∈ blocks, ∀ l ∈ b.2, parseTag l = none) →
    ∀ (cur : Option (CellType × List String)),
      parseLines (renderBlocks blocks) cur = flushBlock cur ++ blocks.map callCell
  | [], _, cur => by simp [renderBlocks, parseLines]
  | (ty, ls) :: rest, h, cur => by
    have hls : ∀ l ∈ ls, parseTag l = none :=
      fun l hl => h (ty, ls) (List.mem_cons_self _ _) l hl
    have hrest : ∀ b ∈ rest, ∀ l ∈ b.2, parseTag l = none :=
      fun b hb => h b (List.mem_cons_of_mem _ hb)
    have htag : parseTag (tagLine ty) = some ty := by cases ty <;> decide
    simp only [renderBlocks, parseLines, htag]
    rw [parseLines_content ls hls (renderBlocks rest) ty []]
    rw [parseLines_render rest hrest (some (ty, ls.reverse ++ []))]
    simp [flushBlock, callCell]

/-- C1: starting from a freshly constructed Notebook, any sequence of N
`add_markdown` / `add_code` calls yields a notebook whose written-out file
contains exactly N cells, the i-th cell holding the content passed to the
i-th call (append order preserved). -/
theorem c1_append_order (calls : List (CellType × List String)) (path : String) (disk : Disk) :
    Notebook.launch (applyCalls Notebook.new calls) path disk path
      = some (applyCalls Notebook.new calls).cells ∧
    (applyCalls Notebook.new calls).cells.length = calls.length ∧
    ∀ i : Nat, (applyCalls Notebook.new calls).cells[i]? = (calls[i]?).map callCell := by
  refine ⟨by simp [Notebook.launch], ?_, ?_⟩
  · rw [applyCalls_cells]
    simp [Notebook.new]
  · intro i
    rw [applyCalls_cells]
    simp [Notebook.new]

/-- C2: loading a tag-delimited template file with
`add_notebook_text_file` yields the same cell sequence as manually
calling `add_code` / `add_markdown` once per block, in the file's block
order. -/
theorem c2_roundtrip (read : HostRead) (nb : Notebook) (path : String)
    (blocks : List (CellType × List String))
    (hfile : read path = .ok (renderBlocks blocks))
    (hcontent : ∀ b ∈ blocks, ∀ l ∈ b.2, parseTag l = none) :
    Notebook.add_notebook_text_file read nb path = .ok (applyBlocks nb blocks) := by
  unfold Notebook.add_notebook_text_file
  rw [hfile]
  have hcells : (applyBlocks nb blocks).cells = nb.cells ++ blocks.map callCell :=
    applyCalls_cells blocks nb
  have hnb : Notebook.add_notebook_text nb (renderBlocks blocks) = applyBlocks nb blocks := by
    apply Notebook.eq_of_cells
    unfold Notebook.add_notebook_text parseNbText
    rw [parseLines_render blocks hcontent none, hcells]
    simp [flushBlock]
  show Except.ok (nb.add_notebook_text (renderBlocks blocks)) = Except.ok (applyBlocks nb blocks)
  rw [hnb]

/-- C3: every notebook-assembly operation preserves the relative order of
the cells already present and only appends at the end: the prior cell
list is a prefix of the cell list afterwards. -/
theorem c3_preserves_order :
    (∀ (nb : Notebook) (s : List String), nb.cells <+: (nb.add_markdown s).cells) ∧
    (∀ (nb : Notebook) (s : List String), nb.cells <+: (nb.add_code s).cells) ∧
    (∀ (read : HostRead) (nb nb2 : Notebook) (p : String),
      Notebook.add_markdown_file read nb p = .ok nb2 → nb.cells <+: nb2.cells) ∧
    (∀ (read : HostRead) (nb nb2 : Notebook) (p : String),
      Notebook.add_code_file read nb p = .ok nb2 → nb.cells <+: nb2.cells) ∧
    (∀ (read : HostRead) (nb nb2 : Notebook) (p : String),
      Notebook.add_notebook_text_file read nb p = .ok nb2 → nb.cells <+: nb2.cells) ∧
    (∀ (readNb : HostReadNb) (nb nb2 : Notebook) (p : String),
      Notebook.add_notebook_file readNb nb p = .ok nb2 → nb.cells <+: nb2.cells) := by
  refine ⟨?_, ?_, ?_, ?_, ?_, ?_⟩
  · intro nb s
    exact List.prefix_append _ _
  · intro nb s
    exact List.prefix_append _ _
  · intro read nb nb2 p h
    unfold Notebook.add_markdown_file at h
    cases hr : read p with
    | ok lines =>
      rw [hr] at h
      injection h with h2
      subst h2
      exact List.prefix_append _ _
    | error e =>
      rw [hr] at h
      exact Except.noConfusion h
  · intro read nb nb2 p h
    unfold Notebook.add_code_file at h
    cases hr : read p with
    | ok lines =>
      rw [hr] at h
      injection h with h2
      subst h2
      exact List.prefix_append _ _
    | error e =>
      rw [hr] at h
      exact Except.noConfusion h
  · intro read nb nb2 p h
    unfold Notebook.add_notebook_text_file at h
    cases hr : read p with
    | ok lines =>
      rw [hr] at h
      injection h with h2
      subst h2
      exact List.prefix_append _ _
    | error e =>
      rw [hr] at h
      exact Except.noConfusion h
  · intro readNb nb nb2 p h
    unfold Notebook.add_notebook_file at h
    cases hr : readNb p with
    | ok cs =>
      rw [hr] at h
      injection h with h2
      subst h2
      exact List.prefix_append _ _
    | error e =>
      rw [hr] at h
      exact Except.noConfusion h

/-- C4: each file-loading assembly operation fails exactly when the host
read primitive fails, and then returns the host's own error unchanged (no
error taxonomy of its own, no retry or recovery). -/
theorem c4_error_propagation :
    (∀ (read : HostRead) (nb : Notebook) (p : String) (e : HostError),
      Notebook.add_markdown_file read nb p = .error e ↔ read p = .error e) ∧
    (∀ (read : HostRead) (nb : Notebook) (p : String) (e : HostError),
      Notebook.add_code_file read nb p = .error e ↔ read p = .error e) ∧
    (∀ (read : HostRead) (nb : Notebook) (p : String) (e : HostError),
      Notebook.add_notebook_text_file read nb p = .error e ↔ read p = .error e) ∧
    (∀ (readNb : HostReadNb) (nb : Notebook) (p : String) (e : HostError),
      Notebook.add_notebook_file readNb nb p = .error e ↔ readNb p = .error e) := by
  refine ⟨?_, ?_, ?_, ?_⟩
  · intro read nb p e
    unfold Notebook.add_markdown_file
    cases hr : read p <;> simp
  · intro read nb p e
    unfold Notebook.add_code_file
    cases hr : read p <;> simp
  · intro read nb p e
    unfold Notebook.add_notebook_text_file
    cases hr : read p <;> simp
  · intro readNb nb p e
    unfold Notebook.add_notebook_file
    cases hr : readNb p <;> simp

/-- C5: the formatted-text parser recognizes exactly the tags `@@code`
and `@@markdown` as block separators; text following a tag becomes one
cell of the announced type, and no other line acts as a tag. -/
theorem c5_tags :
    (∀ l : String, parseTag l = some CellType.code ↔ l = "@@code") ∧
    (∀ l : String, parseTag l = some CellType.markdown ↔ l = "@@markdown") ∧
    (∀ (ty : CellType) (ls : List String), (∀ l ∈ ls, parseTag l = none) →
      parseNbText (tagLine ty :: ls) = [⟨ty, ls⟩]) := by
  refine ⟨?_, ?_, ?_⟩
  · intro l
    unfold parseTag
    split <;> simp_all
  · intro l
    unfold parseTag
    split <;> simp_all
  · intro ty ls h
    unfold parseNbText
    have htag : parseTag (tagLine ty) = some ty := by cases ty <;> decide
    simp only [parseLines, htag]
    have hc := parseLines_content ls h [] ty []
    rw [List.append_nil] at hc
    rw [hc]
    simp [parseLines, flushBlock]

/-- C6: `launch(path)` writes exactly the accumulated cell list to the
given path and leaves every other path of the disk unchanged. -/
theorem c6_launch_writes (nb : Notebook) (path : String) (disk : Disk) :
    Notebook.launch nb path disk path = some nb.cells ∧
    ∀ p : String, p ≠ path → Notebook.launch nb path disk p = disk p := by
  constructor
  · simp [Notebook.launch]
  · intro p hp
    simp [Notebook.launch, hp]

/-- C7: `add_notebook_file` appends all cells of the read notebook, in
their original order, after the current cells: the result is the
concatenation of the prior cells with the file's cells. -/
theorem c7_notebook_concat (readNb : HostReadNb) (nb : Notebook) (f : String)
    (cs : List Cell) (h : readNb f = .ok cs) :
    Notebook.add_notebook_file readNb nb f = .ok ⟨nb.cells ++ cs⟩ := by
  unfold Notebook.add_notebook_file
  rw [h]

/-- C9: `add_notebook_text_files` on a path list is the same as calling
`add_notebook_text_file` on each element in list order (a monadic fold
over the list). -/
theorem c9_files_sequential (read : HostRead) (nb : Notebook) (L : List String) :
    Notebook.add_notebook_text_files read nb L
      = L.foldlM (fun nb2 p => Notebook.add_notebook_text_file read nb2 p) nb := by
  induction L generalizing nb with
  | nil => rfl
  | cons p ps ih =>
    rw [List.foldlM_cons]
    unfold Notebook.add_notebook_text_files
    cases h : Notebook.add_notebook_text_file read nb p with
    | ok nb2 => simp [h, ih, Bind.bind, Except.bind]
    | error e => simp [h, Bind.bind, Except.bind]

/-- C10: notebook assembly is deterministic: two runs of the same
operation sequence against pointwise-identical file contents produce the
same result, hence `launch` writes identical content both times. -/
theorem c10_deterministic (read1 read2 : HostRead) (readNb1 readNb2 : HostReadNb)
    (h1 : ∀ p, read1 p = read2 p) (h2 : ∀ p, readNb1 p = readNb2 p)
    (nb : Notebook) (cmds : List Cmd) :
    run read1 readNb1 nb cmds = run read2 readNb2 nb cmds ∧
    ∀ (path : String) (disk : Disk),
      (run read1 readNb1 nb cmds).map (fun nb2 => Notebook.launch nb2 path disk)
        = (run read2 readNb2 nb cmds).map (fun nb2 => Notebook.launch nb2 path disk) := by
  have e1 : read1 = read2 := funext h1
  have e2 : readNb1 = readNb2 := funext h2
  subst e1
  subst e2
  exact ⟨rfl, fun _ _ => rfl⟩

theorem c2_roundtrip_witness :
    Notebook.add_notebook_text_file
        (fun p => if p = "templates/nbtext.txt"
          then Except.ok (renderBlocks
            [(CellType.markdown, ["# Title"]), (CellType.code, ["x = 1", "y = 2"])])
          else Except.error ⟨"missing"⟩)
        Notebook.new "templates/nbtext.txt"
      = Except.ok (applyBlocks Notebook.new
          [(CellType.markdown, ["# Title"]), (CellType.code, ["x = 1", "y = 2"])]) :=
  c2_roundtrip _ Notebook.new "templates/nbtext.txt"
    [(CellType.markdown, ["# Title"]), (CellType.code, ["x = 1", "y = 2"])]
    rfl (by decide)

theorem c3_preserves_order_witness :
    (Notebook.mk [⟨CellType.code, ["setup()"]⟩]).cells <+:
      ((Notebook.mk [⟨CellType.code, ["setup()"]⟩]).add_markdown ["note"]).cells ∧
    (Notebook.mk [⟨CellType.code, ["setup()"]⟩]).cells <+:
      (Notebook.mk [⟨CellType.code, ["setup()"]⟩, ⟨CellType.markdown, ["loaded"]⟩]).cells :=
  ⟨c3_preserves_order.1 (Notebook.mk [⟨CellType.code, ["setup()"]⟩]) ["note"],
   c3_preserves_order.2.2.1 (fun _ => Except.ok ["loaded"])
     (Notebook.mk [⟨CellType.code, ["setup()"]⟩])
     (Notebook.mk [⟨CellType.code, ["setup()"]⟩, ⟨CellType.markdown, ["loaded"]⟩])
     "templates/lorem.md" rfl⟩

theorem c4_error_propagation_witness :
    Notebook.add_markdown_file (fun _ => Except.error ⟨"No such file or directory"⟩)
        Notebook.new "missing.md"
      = Except.error ⟨"No such file or directory"⟩ :=
  (c4_error_propagation.1 (fun _ => Except.error ⟨"No such file or directory"⟩)
    Notebook.new "missing.md" ⟨"No such file or directory"⟩).mpr rfl

theorem c5_tags_witness :
    parseNbText (tagLine CellType.code :: ["print(1)", "print(2)"])
      = [⟨CellType.code, ["print(1)", "print(2)"]⟩] :=
  c5_tags.2.2 CellType.code ["print(1)", "print(2)"] (by decide)

theorem c6_launch_writes_witness :
    Notebook.launch Notebook.new "Report.ipynb" (fun _ => none) "Report.ipynb"
        = some Notebook.new.cells ∧
    Notebook.launch Notebook.new "Report.ipynb" (fun _ => none) "Other.ipynb"
        = (fun _ => none : Disk) "Other.ipynb" :=
  ⟨(c6_launch_writes Notebook.new "Report.ipynb" (fun _ => none)).1,
   (c6_launch_writes Notebook.new "Report.ipynb" (fun _ => none)).2 "Other.ipynb" (by decide)⟩

theorem c7_notebook_concat_witness :
    Notebook.add_notebook_file (fun _ => Except.ok [⟨CellType.markdown, ["# Hello"]⟩])
        (Notebook.mk [⟨CellType.code, ["a = 1"]⟩]) "HelloWorld.ipynb"
      = Except.ok ⟨[⟨CellType.code, ["a = 1"]⟩] ++ [⟨CellType.markdown, ["# Hello"]⟩]⟩ :=
  c7_notebook_concat (fun _ => Except.ok [⟨CellType.markdown, ["# Hello"]⟩])
    (Notebook.mk [⟨CellType.code, ["a = 1"]⟩]) "HelloWorld.ipynb"
    [⟨CellType.markdown, ["# Hello"]⟩] rfl

theorem c10_deterministic_witness :
    run (fun _ => Except.ok ["@@markdown", "hi"]) (fun _ => Except.ok [])
        Notebook.new [Cmd.addNotebookTextFile "a.txt"]
      = run (fun _ => Except.ok ["@@markdown", "hi"]) (fun _ => Except.ok [])
        Notebook.new [Cmd.addNotebookTextFile "a.txt"] :=
  (c10_deterministic (fun _ => Except.ok ["@@markdown", "hi"])
    (fun _ => Except.ok ["@@markdown", "hi"]) (fun _ => Except.ok []) (fun _ => Except.ok [])
    (fun _ => rfl) (fun _ => rfl) Notebook.new [Cmd.addNotebookTextFile "a.txt"]).1
